import Mathlib

/-!
Verification of the TTS / avatar speech core of the copilot_react repository.

The definitions below are shallow embeddings of the TypeScript sources:
  - `TextPrep`    : `prepareSpeechInput` (identical in `src/AzureSpeechService.ts`
                    and `src/ElevenLabsTTSService.ts`) and `chunkText`
                    (`src/ElevenLabsTTSService.ts`).
  - `ElevenLabs`  : `generateApproximateVisemes`, `concatenateResults`, and the
                    settle-time behaviour of `synthesizeSingleChunk`.
  - `Azure`       : the settled-flag / timeout state machine shared by
                    `synthesizeSpeechWithVisemes` and `synthesizeSpeechOnly`.
  - `Hook`        : the `useSpeechAvatar` React hook
                    (`speakWithLipSync`, `speakWithoutLipSync`, `cancelSpeech`).
  - `AvatarEngine`: the playback engine of the `Avatar` component
                    (`stopSpeech`, `startPlayback` autoplay handling).

Text is modelled as `List Char`; JavaScript numbers that are integral in the
source (millisecond offsets, durations, indices, byte values) are modelled as
`Nat`.  Asynchronous callback interleavings are modelled as explicit event
sequences folded over a state-transition function; the single-threaded
event-loop semantics of the browser makes each callback body atomic.
-/

/-- `VisemeData` from `src/TTSService.ts`: one mouth-shape event at a point in
the audio. -/
structure VisemeData where
  audioOffset : Nat
  visemeId : Nat
deriving DecidableEq, Repr

/-- Ordering of viseme events by their audio offset. -/
def visLE (a b : VisemeData) : Prop :=
  a.audioOffset ≤ b.audioOffset

instance : DecidableRel visLE := fun a b => Nat.decLe a.audioOffset b.audioOffset

instance : IsTotal VisemeData visLE :=
  ⟨fun a b => Nat.le_total a.audioOffset b.audioOffset⟩

instance : IsTrans VisemeData visLE :=
  ⟨fun _ _ _ h1 h2 => Nat.le_trans h1 h2⟩

/-- `TTSResult` from `src/TTSService.ts` (audio bytes, viseme timeline,
duration in milliseconds). -/
structure TTSResult where
  audioBuffer : List Nat
  visemeData : List VisemeData
  duration : Nat
deriving DecidableEq, Repr

/-- A promise settle time: `none` when the promise never settles,
`some t` when it settles (resolves or rejects) at time `t` ms. -/
def settlesWithin (settleAt : Option Nat) (bound : Nat) : Prop :=
  ∃ t, settleAt = some t ∧ t ≤ bound

namespace TextPrep

/-- The sentence-ending characters of the regex `[^.!?]*[.!?]+\s*`. -/
def isTerminator (c : Char) : Bool :=
  c = '.' || c = '!' || c = '?'

/-- Whitespace, as matched by `\s` and removed by `String.prototype.trim`
(restricted to the ASCII whitespace characters). -/
def isWs (c : Char) : Bool :=
  c = ' ' || c = '\t' || c = '\n' || c = '\r' || c = '\x0b' || c = '\x0c'

/-- `text.trim()`. -/
def trim (l : List Char) : List Char :=
  ((l.dropWhile isWs).reverse.dropWhile isWs).reverse

/-- All characters of `l` that are not whitespace: the residue that any
whitespace normalization preserves. -/
def stripWs (l : List Char) : List Char :=
  l.filter (fun c => !isWs c)

/--
`text.match(/[^.!?]*[.!?]+\s*/g)` as a left-to-right scan.  The first
component is the list of matches (each of shape
`non-terminators, terminator run, whitespace run`); the second component is
the unmatched remainder, which is nonempty exactly when the text has trailing
content after the last terminator-plus-whitespace run — `String.match`
silently omits it.  `st = 0`: inside the `[^.!?]*` part; `st = 1`: inside the
`[.!?]+` run; `st = 2`: inside the final `\s*` run.
-/
def sentScan (acc : List Char) (st : Nat) : List Char → List (List Char) × List Char
  | [] => if st == 0 then ([], acc.reverse) else ([acc.reverse], [])
  | c :: rest =>
    if st == 0 then
      if isTerminator c then sentScan (c :: acc) 1 rest
      else sentScan (c :: acc) 0 rest
    else if st == 1 then
      if isTerminator c then sentScan (c :: acc) 1 rest
      else if isWs c then sentScan (c :: acc) 2 rest
      else
        let p := sentScan [c] 0 rest
        (acc.reverse :: p.1, p.2)
    else
      if isWs c then sentScan (c :: acc) 2 rest
      else if isTerminator c then
        let p := sentScan [c] 1 rest
        (acc.reverse :: p.1, p.2)
      else
        let p := sentScan [c] 0 rest
        (acc.reverse :: p.1, p.2)

/-- `const sentences = text.match(sentenceRegex) || [text];` (`match` returns
`null` exactly when there is no match). -/
def sentences (text : List Char) : List (List Char) :=
  let m := (sentScan [] 0 text).1
  if m = [] then [text] else m

/-- The greedy packing loop of `chunkText`: accumulate sentences into
`currentChunk`, starting a new chunk when adding the next sentence would
exceed `maxLength` and the current chunk is nonempty; finally push the last
trimmed chunk when it is nonempty. -/
def packGo (maxLength : Nat) (cur : List Char) : List (List Char) → List (List Char)
  | [] => if trim cur = [] then [] else [trim cur]
  | s :: rest =>
    if cur.length + s.length > maxLength ∧ cur ≠ [] then
      trim cur :: packGo maxLength s rest
    else
      packGo maxLength (cur ++ s) rest

/-- `chunkText(text, maxLength)` from `src/ElevenLabsTTSService.ts`
(lines 294-324). -/
def chunkText (text : List Char) (maxLength : Nat) : List (List Char) :=
  let chunks := packGo maxLength [] (sentences text)
  if chunks = [] ∧ trim text ≠ [] then [trim text] else chunks

/-- The input is either fully covered by the sentence pattern (second
component of the scan empty) or contains no sentence terminator at all
(no match, so the code falls back to `[text]`). -/
def covered (text : List Char) : Prop :=
  (sentScan [] 0 text).1 = [] ∨ (sentScan [] 0 text).2 = []

instance : DecidablePred covered := fun t =>
  decidable_of_iff ((sentScan [] 0 t).1 = [] ∨ (sentScan [] 0 t).2 = []) Iff.rfl

/-- `'**Source:**'` — the sources-footer marker. -/
def sourceMarker : List Char :=
  ("**Source:**").toList

/-- `' Please check references below for more information'` — the pointer
sentence appended in place of the removed footer (with its leading space). -/
def pointerSentence : List Char :=
  (" Please check references below for more information").toList

/-- `text.indexOf(pattern)`, returning `none` for `-1`. -/
def findSub (pat : List Char) : List Char → Option Nat
  | [] => if pat.isEmpty then some 0 else none
  | c :: rest =>
    if pat.isPrefixOf (c :: rest) then some 0
    else (findSub pat rest).map (· + 1)

/-- `prepareSpeechInput(text)` — identical in `src/AzureSpeechService.ts`
(lines 253-261) and `src/ElevenLabsTTSService.ts` (lines 476-484): truncate
at the `'**Source:**'` marker, append the pointer sentence, trim. -/
def prepareSpeechInput (text : List Char) : List Char :=
  match findSub sourceMarker text with
  | some idx => trim (trim (text.take idx) ++ pointerSentence)
  | none => trim text

end TextPrep

namespace ElevenLabs

/--
The `while (currentTime < duration)` loop of `generateApproximateVisemes`
(`src/ElevenLabsTTSService.ts`, lines 511-556): one event per 50 ms tick
(`const interval = 50`).  The `Math.random()`-driven selection of each tick's
viseme id (the 10% pause coin and the pick-an-active-viseme loop biased
against repetition) is abstracted as the oracle `choice`, because neither the
number of events nor any offset depends on the random draws; `choice step`
stands for whatever id the random process assigned to tick `step`.
-/
def genGo (choice : Nat → Nat) (duration currentTime step : Nat) : List VisemeData :=
  if _h : currentTime < duration then
    VisemeData.mk currentTime (choice step) ::
      genGo choice duration (currentTime + 50) (step + 1)
  else []
termination_by duration - currentTime
decreasing_by omega

/-- `generateApproximateVisemes(text, duration)`: the 50 ms loop followed by
the forced closed-mouth event `{ audioOffset: duration, visemeId: 0 }`. -/
def generateApproximateVisemes (choice : Nat → Nat) (duration : Nat) : List VisemeData :=
  genGo choice duration 0 0 ++ [VisemeData.mk duration 0]

/-- The viseme-combination loop of `concatenateResults`
(`src/ElevenLabsTTSService.ts`, lines 352-364): each chunk's viseme offsets
are shifted by the cumulative duration of the chunks before it. -/
def concatVisemes : Nat → List TTSResult → List VisemeData
  | _, [] => []
  | timeOffset, r :: rest =>
    (r.visemeData.map fun v => VisemeData.mk (v.audioOffset + timeOffset) v.visemeId) ++
      concatVisemes (timeOffset + r.duration) rest

/-- `concatenateResults(results)` (`src/ElevenLabsTTSService.ts`,
lines 329-374): empty input gives an empty result, a single result is passed
through, otherwise audio buffers are concatenated, viseme offsets re-based by
cumulative durations, and the duration is the sum of chunk durations. -/
def concatenateResults (results : List TTSResult) : TTSResult :=
  match results with
  | [] => TTSResult.mk [] [] 0
  | [r] => r
  | _ :: _ :: _ =>
    TTSResult.mk ((results.map TTSResult.audioBuffer).flatten)
      (concatVisemes 0 results)
      ((results.map TTSResult.duration).sum)

/-- The settle-time behaviour of `synthesizeSingleChunk`
(`src/ElevenLabsTTSService.ts`, lines 379-428): the body only awaits the
network stream (`client.textToSpeech.convert` and its chunks) with no timer
racing it, so the caller's promise settles exactly when the network call
does (`some (t, ok)`), and never settles when the network call hangs
(`none`). -/
def singleChunkCall (network : Option (Nat × Bool)) : Option Nat × Option Bool :=
  match network with
  | none => (none, none)
  | some (t, ok) => (some t, some ok)

end ElevenLabs

namespace Azure

/-- `visemeData.sort((a, b) => a.audioOffset - b.audioOffset)` performed in
`synthesizeSpeechWithVisemes` before resolving (`src/AzureSpeechService.ts`,
line 145), modelled as a stable sort by `audioOffset`. -/
def sortVisemes (vs : List VisemeData) : List VisemeData :=
  List.insertionSort visLE vs

/-- `private readonly synthesisTimeoutMs = 20000`. -/
def synthesisTimeoutMs : Nat := 20000

/-- The possible deliveries of the speech SDK for one synthesis request:
the success callback with a completed result, the success callback with a
non-completed reason (rejects without rebuilding the synthesizer), or the
error callback (rejects and rebuilds the synthesizer). -/
inductive CbResult where
  | completed (visemes : List VisemeData) (duration : Nat)
  | failedResult
  | errorCb
deriving DecidableEq

/-- How the caller's promise was settled. -/
inductive Outcome where
  | resolved (visemes : List VisemeData) (duration : Nat)
  | rejectedTimeout
  | rejectedError
deriving DecidableEq

/-- The per-request state of `synthesizeSpeechWithVisemes` /
`synthesizeSpeechOnly` (`src/AzureSpeechService.ts`, lines 94-166 and
205-250): the `promiseState.settled` flag, membership of `promiseState` in
`activeSynthesisPromises`, whether `clearTimeout` has run, how many times
`resetSynthesizerAfterFailure` rebuilt the synthesizer, and the settlement
of the caller's promise. -/
structure SynthState where
  settled : Bool
  inSet : Bool
  timeoutCleared : Bool
  resets : Nat
  outcome : Option Outcome
deriving DecidableEq

def initState : SynthState :=
  SynthState.mk false true false 0 none

/-- The interleaved events: the 20 s timer firing, or the SDK delivering the
synthesis callback. -/
inductive SynthEvent where
  | timeoutFires
  | callback (r : CbResult)

/-- One callback body.  Both the timeout handler and the SDK callbacks begin
with `if (promiseState.settled || !this.activeSynthesisPromises.has(promiseState)) return;`
and then settle exactly once; the timeout handler and the error callback also
call `resetSynthesizerAfterFailure()`; the completion callback sorts the
collected visemes before resolving. -/
def azStep (s : SynthState) : SynthEvent → SynthState
  | .timeoutFires =>
    if s.timeoutCleared then s
    else if s.settled || !s.inSet then s
    else
      { s with
        settled := true
        inSet := false
        resets := s.resets + 1
        outcome := some Outcome.rejectedTimeout }
  | .callback r =>
    if s.settled || !s.inSet then s
    else
      match r with
      | .completed vs d =>
        { s with
          settled := true
          inSet := false
          timeoutCleared := true
          outcome := some (Outcome.resolved (sortVisemes vs) d) }
      | .failedResult =>
        { s with
          settled := true
          inSet := false
          timeoutCleared := true
          outcome := some Outcome.rejectedError }
      | .errorCb =>
        { s with
          settled := true
          inSet := false
          timeoutCleared := true
          resets := s.resets + 1
          outcome := some Outcome.rejectedError }

def azRun (s : SynthState) (events : List SynthEvent) : SynthState :=
  events.foldl azStep s

/-- Timing wrapper for one Azure synthesis call: `network = none` means the
network call never settles, `some (t, r)` means the SDK delivers `r` at time
`t` ms.  The timer is armed at `synthesisTimeoutMs`; whichever event is due
first runs first (a tie goes to the timer).  Returns the settle time of the
caller's promise and the final request state. -/
def azCall (network : Option (Nat × CbResult)) : Option Nat × SynthState :=
  match network with
  | none => (some synthesisTimeoutMs, azRun initState [SynthEvent.timeoutFires])
  | some (t, r) =>
    if t < synthesisTimeoutMs then
      (some t, azRun initState [SynthEvent.callback r])
    else
      (some synthesisTimeoutMs,
        azRun initState [SynthEvent.timeoutFires, SynthEvent.callback r])

end Azure

namespace Hook

/-- The state of `useSpeechAvatar` (`src/hooks/useSpeechAvatar.ts`): the
`isCancelled` ref plus the React state fields touched by
`speakWithLipSync` / `cancelSpeech`, an `error` tag, and a log of the
durations each `speakWithLipSync` call resolved with (the duration
callback). -/
structure HookState where
  isCancelled : Bool
  isInitialized : Bool
  isLoading : Bool
  isSpeaking : Bool
  error : Option Nat
  visemeData : List VisemeData
  audioBuffer : Option (List Nat)
  returnLog : List (Nat × Nat)
deriving DecidableEq

def initState : HookState :=
  HookState.mk false true false false none [] none []

/-- The interleaved events of the hook: the synchronous prefix of a
`speakWithLipSync id` call on nonempty text (reset `isCancelled`, set
loading), the resumption of call `id` when its synthesis promise resolves
with `r`, and a `cancelSpeech()` call. -/
inductive HookEvent where
  | speakInvoke (id : Nat)
  | synthResolve (id : Nat) (r : TTSResult)
  | cancel

/-- One atomic event of the hook, from `src/hooks/useSpeechAvatar.ts`:
`speakInvoke` is lines 159-166 (`isCancelled.current = false`, set
`isLoading`); `synthResolve` is lines 173-189 (check `isCancelled.current`,
either discard and return 0 or publish the result and return its duration);
`cancel` is `cancelSpeech` lines 137-146. -/
def hookStep (s : HookState) : HookEvent → HookState
  | .speakInvoke _ =>
    { s with isCancelled := false, isLoading := true, error := none }
  | .synthResolve id r =>
    if s.isCancelled then
      { s with isLoading := false, returnLog := s.returnLog ++ [(id, 0)] }
    else
      { s with
        isLoading := false
        isSpeaking := true
        visemeData := r.visemeData
        audioBuffer := some r.audioBuffer
        returnLog := s.returnLog ++ [(id, r.duration)] }
  | .cancel =>
    { s with
      isCancelled := true
      isSpeaking := false
      visemeData := []
      audioBuffer := none }

def hookRun (s : HookState) (events : List HookEvent) : HookState :=
  events.foldl hookStep s

/-- Distinctive results of the first and second synthesis calls in the C2
interleaving. -/
def firstResult : TTSResult :=
  TTSResult.mk [1] [VisemeData.mk 0 5] 1500

def secondResult : TTSResult :=
  TTSResult.mk [2] [VisemeData.mk 0 7] 2000

/-- How a `speakWithLipSync` / `speakWithoutLipSync` call returns control
before any synthesis happens: it throws (`not initialized`), resolves
immediately (`returnedEarly`: `return 0` resp. `return` on blank text,
without invoking the TTS provider), or proceeds to invoke
`ttsService.synthesize...` (`launched`). -/
inductive SpeakOutcome where
  | threw
  | returnedEarly
  | launched
deriving DecidableEq

/-- The synchronous prefix of `speakWithLipSync`
(`src/hooks/useSpeechAvatar.ts`, lines 149-166): initialization guard, blank
guard (`if (!text.trim()) ... return 0;`), then reset `isCancelled` and set
loading.  Only the `launched` outcome goes on to call
`ttsService.synthesizeSpeechWithVisemes`. -/
def speakWithLipSyncStart (s : HookState) (text : List Char) :
    HookState × SpeakOutcome :=
  if !s.isInitialized then (s, SpeakOutcome.threw)
  else if TextPrep.trim text = [] then (s, SpeakOutcome.returnedEarly)
  else ({ s with isCancelled := false, isLoading := true, error := none },
    SpeakOutcome.launched)

/-- The synchronous prefix of `speakWithoutLipSync`
(`src/hooks/useSpeechAvatar.ts`, lines 202-211): initialization guard, blank
guard (`if (!text.trim()) return;`), then set loading.  Only the `launched`
outcome goes on to call `ttsService.synthesizeSpeechOnly`. -/
def speakWithoutLipSyncStart (s : HookState) (text : List Char) :
    HookState × SpeakOutcome :=
  if !s.isInitialized then (s, SpeakOutcome.threw)
  else if TextPrep.trim text = [] then (s, SpeakOutcome.returnedEarly)
  else ({ s with isLoading := true, error := none }, SpeakOutcome.launched)

end Hook

namespace AvatarEngine

/-- The avatar's mouth shape: `'neutral'` or one of the named active shapes
of `VISEME_MOUTH_SHAPES` (identified by their index). -/
inductive MouthShape where
  | neutral
  | shape (id : Nat)
deriving DecidableEq

/-- The `<audio>` element's observable playback fields. -/
structure AudioElem where
  paused : Bool
  currentTime : Nat
deriving DecidableEq

/-- The playback-engine resources of the `Avatar` component: the audio
element (if mounted), the pending `requestAnimationFrame` handle
(`animationRef`), the armed autoplay-resume listener
(`pendingResumeHandlerRef`), the object URL backing the audio
(`objectUrlRef`), and the current mouth shape. -/
structure EngineState where
  audioElem : Option AudioElem
  animationFrame : Option Nat
  pendingResume : Bool
  objectUrl : Option Nat
  mouth : MouthShape
deriving DecidableEq

/-- The externally observable signals of the engine. -/
inductive Signal where
  | speechStart
  | speechEnd
  | stopSignal
deriving DecidableEq

/-- `stopSpeech()` (`Avatar` component, lines 234-258): pause the audio and
reset its position, cancel the animation frame, remove any pending resume
listener, reset the mouth to neutral, revoke the object URL, then fire
`onSpeechEnd` (the completion signal, shared with natural end) and
`onStopSpeech`, each exactly once. -/
def stopSpeech (s : EngineState) : EngineState × List Signal :=
  (EngineState.mk (s.audioElem.map fun _ => AudioElem.mk true 0)
    none false none MouthShape.neutral,
   [Signal.speechEnd, Signal.stopSignal])

/-- The result of one `element.play()` attempt: it starts, it is blocked by
the autoplay policy (`NotAllowedError`), or it fails for another reason. -/
inductive PlayOutcome where
  | ok
  | notAllowed
  | failed
deriving DecidableEq

/-- Counters for the autoplay model: number of `element.play()` calls made,
whether audio is playing, whether a one-shot resume listener is armed, and
how often `onSpeechStart` / `onSpeechEnd` fired. -/
structure APState where
  attempts : Nat
  playing : Bool
  pendingResume : Bool
  startCount : Nat
  endCount : Nat
deriving DecidableEq

def apInit : APState :=
  APState.mk 0 false false 0 0

/-- One invocation of `startPlayback` (`Avatar` component, lines 168-211):
`env n` is the outcome of the `n`-th `element.play()` call.  On success it
fires `onSpeechStart` and begins playing; on `NotAllowedError` it fires
`onSpeechEnd` immediately (treated as ended, not erred) and arms the one-shot
resume listener; on any other failure the surrounding catch fires
`onSpeechEnd`. -/
def attemptPlay (env : Nat → PlayOutcome) (s : APState) : APState :=
  let s1 := { s with attempts := s.attempts + 1 }
  match env s.attempts with
  | .ok => { s1 with playing := true, startCount := s1.startCount + 1 }
  | .notAllowed => { s1 with endCount := s1.endCount + 1, pendingResume := true }
  | .failed => { s1 with endCount := s1.endCount + 1 }

/-- A user pointer/key interaction: if the one-shot resume handler is armed,
it removes itself (listeners removed, ref cleared) and retries
`startPlayback` exactly once; otherwise nothing happens. -/
def userInteraction (env : Nat → PlayOutcome) (s : APState) : APState :=
  if s.pendingResume then attemptPlay env { s with pendingResume := false }
  else s

/-- An environment in which the first `element.play()` is blocked by the
autoplay policy and the retry succeeds. -/
def envBlockedThenOk : Nat → PlayOutcome :=
  fun n => if n = 0 then PlayOutcome.notAllowed else PlayOutcome.ok

end AvatarEngine

namespace TextPrep

theorem sentScan_flatten (l : List Char) : ∀ (acc : List Char) (st : Nat),
    (sentScan acc st l).1.flatten ++ (sentScan acc st l).2 = acc.reverse ++ l := by
  induction l with
  | nil =>
    intro acc st
    by_cases h : st == 0 <;> simp [sentScan, h]
  | cons c rest ih =>
    intro acc st
    by_cases h0 : st == 0
    · by_cases ht : isTerminator c <;>
        simp [sentScan, h0, ht, ih, List.append_assoc]
    · by_cases h1 : st == 1
      · by_cases ht : isTerminator c
        · simp [sentScan, h0, h1, ht, ih, List.append_assoc]
        · by_cases hw : isWs c
          · simp [sentScan, h0, h1, ht, hw, ih, List.append_assoc]
          · simp [sentScan, h0, h1, ht, hw, ih, List.append_assoc]
      · by_cases hw : isWs c
        · simp [sentScan, h0, h1, hw, ih, List.append_assoc]
        · by_cases ht : isTerminator c
          · simp [sentScan, h0, h1, hw, ht, ih, List.append_assoc]
          · simp [sentScan, h0, h1, hw, ht, ih, List.append_assoc]

/-- On a covered input the matched sentences concatenate back to the text. -/
theorem flatten_sentences (text : List Char) (h : covered text) :
    (sentences text).flatten = text := by
  have hs := sentScan_flatten text [] 0
  simp only [List.reverse_nil, List.nil_append] at hs
  rcases h with h | h
  · simp [sentences, h]
  · by_cases hm : (sentScan [] 0 text).1 = []
    · have htext : text = [] := by
        rw [hm, h] at hs
        simpa using hs.symm
      subst htext
      decide
    · rw [h, List.append_nil] at hs
      simp [sentences, hm, hs]

theorem stripWs_append (a b : List Char) :
    stripWs (a ++ b) = stripWs a ++ stripWs b := by
  simp [stripWs, List.filter_append]

theorem stripWs_reverse (l : List Char) :
    stripWs l.reverse = (stripWs l).reverse := by
  simp [stripWs, List.filter_reverse]

theorem stripWs_dropWhile (l : List Char) :
    stripWs (l.dropWhile isWs) = stripWs l := by
  induction l with
  | nil => rfl
  | cons c rest ih =>
    by_cases h : isWs c
    · simpa [stripWs, List.dropWhile, h] using ih
    · simp [List.dropWhile, h]

theorem stripWs_trim (l : List Char) : stripWs (trim l) = stripWs l := by
  unfold trim
  rw [stripWs_reverse, stripWs_dropWhile, stripWs_reverse,
    List.reverse_reverse, stripWs_dropWhile]

theorem stripWs_of_trim_eq_nil (l : List Char) (h : trim l = []) :
    stripWs l = [] := by
  rw [← stripWs_trim, h]
  rfl

/-- Packing reorganizes sentences into chunks but, modulo whitespace,
preserves exactly the characters of the current chunk followed by the
remaining sentences. -/
theorem stripWs_packGo (maxLength : Nat) :
    ∀ (sents : List (List Char)) (cur : List Char),
    stripWs (packGo maxLength cur sents).flatten = stripWs (cur ++ sents.flatten) := by
  intro sents
  induction sents with
  | nil =>
    intro cur
    by_cases h : trim cur = []
    · simp only [packGo, if_pos h, List.flatten_nil, List.append_nil]
      exact (stripWs_of_trim_eq_nil cur h).symm
    · simp only [packGo, if_neg h, List.flatten_cons, List.flatten_nil,
        List.append_nil]
      exact stripWs_trim cur
  | cons s rest ih =>
    intro cur
    by_cases h : cur.length + s.length > maxLength ∧ cur ≠ []
    · simp only [packGo, if_pos h, List.flatten_cons]
      rw [stripWs_append, stripWs_trim, ih s]
      simp [stripWs_append, List.flatten_cons, List.append_assoc]
    · simp only [packGo, if_neg h]
      rw [ih (cur ++ s)]
      simp [stripWs_append, List.flatten_cons, List.append_assoc]

/-- When all sentences together fit within `maxLength`, the packing loop
never splits: it returns one trimmed chunk (or nothing if it is all
whitespace). -/
theorem packGo_small (maxLength : Nat) :
    ∀ (sents : List (List Char)) (cur : List Char),
    (cur ++ sents.flatten).length ≤ maxLength →
    packGo maxLength cur sents =
      if trim (cur ++ sents.flatten) = [] then []
      else [trim (cur ++ sents.flatten)] := by
  intro sents
  induction sents with
  | nil =>
    intro cur _
    simp [packGo]
  | cons s rest ih =>
    intro cur hlen
    have hle : cur.length + s.length ≤ (cur ++ (s :: rest).flatten).length := by
      simp only [List.flatten_cons, List.length_append]
      omega
    have h1 : ¬ (cur.length + s.length > maxLength ∧ cur ≠ []) := by
      rintro ⟨hgt, -⟩
      omega
    simp only [packGo, if_neg h1]
    have h2 : ((cur ++ s) ++ rest.flatten).length ≤ maxLength := by
      simp only [List.length_append]
      simp only [List.flatten_cons, List.length_append] at hlen
      omega
    rw [ih (cur ++ s) h2]
    simp [List.flatten_cons, List.append_assoc]

theorem stripWs_chunkText (text : List Char) (maxLength : Nat)
    (h : covered text) :
    stripWs (chunkText text maxLength).flatten = stripWs text := by
  have hp := stripWs_packGo maxLength (sentences text) []
  rw [List.nil_append, flatten_sentences text h] at hp
  by_cases hc : packGo maxLength [] (sentences text) = [] ∧ trim text ≠ []
  · simp only [chunkText, if_pos hc, List.flatten_cons, List.flatten_nil,
      List.append_nil]
    exact stripWs_trim text
  · simp only [chunkText, if_neg hc]
    exact hp

end TextPrep

namespace ElevenLabs

/-- Closed form of the 50 ms generation loop: starting at time `t` and step
`s` it emits exactly `(duration - t + 49) / 50` events, the `k`-th at offset
`t + 50 * k`. -/
theorem genGo_eq (choice : Nat → Nat) (duration : Nat) :
    ∀ (n t s : Nat), duration - t ≤ n →
    genGo choice duration t s =
      (List.range ((duration - t + 49) / 50)).map
        (fun k => VisemeData.mk (t + 50 * k) (choice (s + k))) := by
  intro n
  induction n with
  | zero =>
    intro t s h
    have h3 : ¬ t < duration := by omega
    have h2 : duration - t = 0 := by omega
    rw [genGo, dif_neg h3, h2]
    rfl
  | succ n ih =>
    intro t s h
    by_cases h3 : t < duration
    · rw [genGo, dif_pos h3]
      have hsteps : (duration - t + 49) / 50 =
          (duration - (t + 50) + 49) / 50 + 1 := by
        omega
      rw [hsteps, List.range_succ_eq_map, List.map_cons, List.map_map]
      rw [ih (t + 50) (s + 1) (by omega)]
      have htail : List.map
          (fun k => VisemeData.mk (t + 50 + 50 * k) (choice (s + 1 + k)))
          (List.range ((duration - (t + 50) + 49) / 50)) =
        List.map
          ((fun k => VisemeData.mk (t + 50 * k) (choice (s + k))) ∘ Nat.succ)
          (List.range ((duration - (t + 50) + 49) / 50)) := by
        apply List.map_congr_left
        intro k _
        have e1 : t + 50 + 50 * k = t + 50 * (k + 1) := by ring
        have e2 : s + 1 + k = s + (k + 1) := by ring
        simp [e1, e2]
      rw [htail]
      simp
    · rw [genGo, dif_neg h3]
      have h2 : duration - t = 0 := by omega
      rw [h2]
      rfl

/-- Closed form of `generateApproximateVisemes`: `ceil(duration / 50)` events
at offsets `0, 50, 100, …` followed by the forced closed-mouth event at
offset `duration`. -/
theorem generateApproximateVisemes_eq (choice : Nat → Nat) (duration : Nat) :
    generateApproximateVisemes choice duration =
      ((List.range ((duration + 49) / 50)).map
        (fun k => VisemeData.mk (50 * k) (choice k))) ++
      [VisemeData.mk duration 0] := by
  unfold generateApproximateVisemes
  rw [genGo_eq choice duration duration 0 0 (by omega)]
  simp

/-- Every offset emitted by the generator is at most the duration. -/
theorem generate_offset_le (choice : Nat → Nat) (duration : Nat) :
    ∀ v ∈ generateApproximateVisemes choice duration,
      v.audioOffset ≤ duration := by
  rw [generateApproximateVisemes_eq]
  intro v hv
  rcases List.mem_append.mp hv with h | h
  · rcases List.mem_map.mp h with ⟨k, hk, rfl⟩
    have hk2 := List.mem_range.mp hk
    simp only []
    omega
  · rcases List.mem_singleton.mp h with rfl
    exact Nat.le_refl _

/-- The generated sequence is non-decreasing in `audioOffset` (in fact the
loop offsets are strictly increasing and the final event is at the maximal
offset). -/
theorem generate_pairwise (choice : Nat → Nat) (duration : Nat) :
    List.Pairwise visLE (generateApproximateVisemes choice duration) := by
  rw [generateApproximateVisemes_eq, List.pairwise_append]
  refine ⟨?_, List.pairwise_singleton _ _, ?_⟩
  · rw [List.pairwise_map]
    exact (List.pairwise_lt_range _).imp
      (fun hab => by simp only [visLE]; omega)
  · intro a ha b hb
    rcases List.mem_map.mp ha with ⟨k, hk, rfl⟩
    have hk2 := List.mem_range.mp hk
    rcases List.mem_singleton.mp hb with rfl
    simp only [visLE]
    omega

/-- Every offset produced by the concatenation loop from base offset `off`
is at least `off`. -/
theorem concatVisemes_offset_le :
    ∀ (rs : List TTSResult) (off : Nat), ∀ v ∈ concatVisemes off rs,
      off ≤ v.audioOffset := by
  intro rs
  induction rs with
  | nil =>
    intro off v h
    simp [concatVisemes] at h
  | cons r rest ih =>
    intro off v h
    rcases List.mem_append.mp h with h | h
    · rcases List.mem_map.mp h with ⟨a, -, rfl⟩
      simp only []
      omega
    · have := ih (off + r.duration) v h
      omega

/-- If every chunk's viseme sequence is sorted and bounded by that chunk's
duration, then the re-offset concatenation is sorted. -/
theorem concatVisemes_pairwise :
    ∀ (rs : List TTSResult) (off : Nat),
    (∀ r ∈ rs, List.Pairwise visLE r.visemeData ∧
      ∀ v ∈ r.visemeData, v.audioOffset ≤ r.duration) →
    List.Pairwise visLE (concatVisemes off rs) := by
  intro rs
  induction rs with
  | nil =>
    intro off _
    simp [concatVisemes]
  | cons r rest ih =>
    intro off h
    have hr := h r (List.mem_cons_self r rest)
    simp only [concatVisemes]
    rw [List.pairwise_append]
    refine ⟨?_, ih (off + r.duration)
      (fun x hx => h x (List.mem_cons_of_mem r hx)), ?_⟩
    · rw [List.pairwise_map]
      exact hr.1.imp (fun hab => by
        simp only [visLE] at hab ⊢
        omega)
    · intro a ha b hb
      rcases List.mem_map.mp ha with ⟨v, hv, rfl⟩
      have h1 : v.audioOffset ≤ r.duration := hr.2 v hv
      have h2 : off + r.duration ≤ b.audioOffset :=
        concatVisemes_offset_le rest (off + r.duration) b hb
      simp only [visLE]
      omega

end ElevenLabs

namespace Azure

/-- Once a request is settled, every later callback and timer firing is a
no-op: the guard at the top of each handler returns immediately. -/
theorem azStep_settled (s : SynthState) (h : s.settled = true) :
    ∀ e, azStep s e = s := by
  intro e
  cases e with
  | timeoutFires =>
    by_cases hc : s.timeoutCleared <;> simp [azStep, hc, h]
  | callback r => simp [azStep, h]

theorem azRun_settled (s : SynthState) (h : s.settled = true) :
    ∀ events, azRun s events = s := by
  intro events
  induction events with
  | nil => rfl
  | cons e rest ih =>
    show azRun (azStep s e) rest = s
    rw [azStep_settled s h e]
    exact ih

end Azure


/-- C1, counterexample: for `text = "A. B"` and `maxLength = 10`, the chunks
returned by `chunkText` do not reproduce the original content even after
whitespace normalization — the trailing sentence `"B"`, which lacks terminal
punctuation, is dropped by the sentence regex (`chunkText` returns `["A."]`). -/
theorem claim_C1_counterexample :
    ¬ (TextPrep.stripWs ((TextPrep.chunkText (("A. B").toList) 10).flatten) =
      TextPrep.stripWs (("A. B").toList)) := by
  decide

/-- C1 (amended): empty input yields an empty sequence, and for every text
that is fully covered by the sentence pattern (it ends with terminal
punctuation, possibly followed by whitespace) or contains no
sentence-terminating punctuation at all, concatenating the chunks returned by
`chunkText text maxLength`, with whitespace normalized, reproduces the
original text's content with no sentence lost or duplicated — including a
single covered sentence longer than `maxLength`, which becomes its own chunk
rather than being dropped.  (A trailing sentence that lacks terminal
punctuation after at least one terminated sentence is dropped, contrary to
the original claim.) -/
theorem claim_C1_amended :
    (∀ maxLength : Nat, TextPrep.chunkText [] maxLength = []) ∧
    ∀ (text : List Char) (maxLength : Nat), TextPrep.covered text →
      TextPrep.stripWs ((TextPrep.chunkText text maxLength).flatten) =
        TextPrep.stripWs text := by
  constructor
  · intro maxLength
    simp [TextPrep.chunkText, TextPrep.sentences, TextPrep.sentScan,
      TextPrep.packGo, TextPrep.trim, List.dropWhile]
  · intro text maxLength h
    exact TextPrep.stripWs_chunkText text maxLength h

/-- C1 witness: the amended theorem applied to the covered text
`"Hi there. All good."` with `maxLength = 10`. -/
theorem claim_C1_witness :
    TextPrep.covered (("Hi there. All good.").toList) ∧
    TextPrep.stripWs
        ((TextPrep.chunkText (("Hi there. All good.").toList) 10).flatten) =
      TextPrep.stripWs (("Hi there. All good.").toList) :=
  ⟨by decide, claim_C1_amended.2 (("Hi there. All good.").toList) 10 (by decide)⟩

/-- C8, counterexample: `"Hi. Bye"` has length 7, below `maxLength = 50`, yet
`chunkText` does not return one chunk equal to the trimmed input: the
unterminated trailing sentence `"Bye"` is dropped and the result is
`["Hi."]`. -/
theorem claim_C8_counterexample :
    ¬ (TextPrep.chunkText (("Hi. Bye").toList) 50 =
      [TextPrep.trim (("Hi. Bye").toList)]) := by
  decide

/-- C8 (amended): for every text whose trimmed form is nonempty, whose length
is at most `maxLength`, and which is fully covered by the sentence pattern or
contains no sentence-terminating punctuation at all, `chunkText text
maxLength` returns exactly one chunk, and that chunk equals the trimmed input
text. -/
theorem claim_C8_amended (text : List Char) (maxLength : Nat)
    (hne : TextPrep.trim text ≠ [])
    (hlen : text.length ≤ maxLength)
    (hcov : TextPrep.covered text) :
    TextPrep.chunkText text maxLength = [TextPrep.trim text] := by
  have hflat := TextPrep.flatten_sentences text hcov
  have hsmall := TextPrep.packGo_small maxLength (TextPrep.sentences text) []
  rw [List.nil_append, hflat] at hsmall
  have hpack := hsmall hlen
  rw [if_neg hne] at hpack
  simp only [TextPrep.chunkText, hpack]
  split <;> rfl

/-- C8 witness: the amended theorem applied to `"A. B."` with
`maxLength = 10`. -/
theorem claim_C8_witness :
    TextPrep.trim (("A. B.").toList) ≠ [] ∧
    (("A. B.").toList).length ≤ 10 ∧
    TextPrep.covered (("A. B.").toList) ∧
    TextPrep.chunkText (("A. B.").toList) 10 =
      [TextPrep.trim (("A. B.").toList)] :=
  ⟨by decide, by decide, by decide,
    claim_C8_amended (("A. B.").toList) 10 (by decide) (by decide) (by decide)⟩

/-- C9: when the literal `'**Source:**'` marker is present at index `idx`,
`prepareSpeechInput` removes everything from the marker onward, appends the
fixed pointer sentence, and whitespace-trims the result (the concrete
scenario `"Hello world. **Source:** http://x"` is the witness below). -/
theorem claim_C9 (text : List Char) (idx : Nat)
    (h : TextPrep.findSub TextPrep.sourceMarker text = some idx) :
    TextPrep.prepareSpeechInput text =
      TextPrep.trim (TextPrep.trim (text.take idx) ++ TextPrep.pointerSentence) := by
  unfold TextPrep.prepareSpeechInput
  rw [h]

/-- C9 witness: the spec scenario — preparing
`"Hello world. **Source:** http://x"` yields exactly
`"Hello world. Please check references below for more information"`. -/
theorem claim_C9_witness :
    TextPrep.findSub TextPrep.sourceMarker
        (("Hello world. **Source:** http://x").toList) = some 13 ∧
    TextPrep.prepareSpeechInput (("Hello world. **Source:** http://x").toList) =
      ("Hello world. Please check references below for more information").toList := by
  refine ⟨by decide, ?_⟩
  rw [claim_C9 (("Hello world. **Source:** http://x").toList) 13 (by decide)]
  decide

/-- C2, code-bug exhibit: in the interleaving "speak 1 starts; speak 2
starts; synthesis 2 resolves; synthesis 1 resolves late", the first call's
stale result passes the `isCancelled` liveness check — the second
`speakWithLipSync` call reset the shared flag to `false` — and overwrites
the visible viseme/audio state, and the stale duration also reaches the
first caller; the claim requires the first call's late result to be
rejected and never mutate the shared state. -/
theorem claim_C2_bug :
    (Hook.hookRun Hook.initState
      [Hook.HookEvent.speakInvoke 1, Hook.HookEvent.speakInvoke 2,
       Hook.HookEvent.synthResolve 2 Hook.secondResult,
       Hook.HookEvent.synthResolve 1 Hook.firstResult]).visemeData =
      Hook.firstResult.visemeData ∧
    (Hook.hookRun Hook.initState
      [Hook.HookEvent.speakInvoke 1, Hook.HookEvent.speakInvoke 2,
       Hook.HookEvent.synthResolve 2 Hook.secondResult,
       Hook.HookEvent.synthResolve 1 Hook.firstResult]).audioBuffer =
      some Hook.firstResult.audioBuffer ∧
    (Hook.hookRun Hook.initState
      [Hook.HookEvent.speakInvoke 1, Hook.HookEvent.speakInvoke 2,
       Hook.HookEvent.synthResolve 2 Hook.secondResult,
       Hook.HookEvent.synthResolve 1 Hook.firstResult]).returnLog =
      [(2, 2000), (1, 1500)] := by
  decide

/-- C3, counterexample: the ElevenLabs adapter's `synthesizeSingleChunk` has
no timeout: when its network call never settles, the caller's promise never
settles either — in particular it is not settled within the fixed 20000 ms
bound the claim asserts for every adapter. -/
theorem claim_C3_counterexample :
    ¬ settlesWithin (ElevenLabs.singleChunkCall none).1 Azure.synthesisTimeoutMs := by
  rintro ⟨t, ht, -⟩
  simp [ElevenLabs.singleChunkCall] at ht

/-- C3 (amended): only the Azure adapter's synthesis operations
(`synthesizeSpeechWithVisemes` and `synthesizeSpeechOnly`, which share the
same timeout/settled-flag structure) wrap the network call in the fixed
20000 ms timeout: when the timeout fires before the network callback, the
caller's promise is rejected with the timeout error, the synthesizer object
is rebuilt exactly once, and every later-arriving callback is a no-op, and
every Azure synthesis call settles within 20000 ms even if the network
hangs.  The ElevenLabs adapter's `synthesizeSingleChunk` has no timeout: a
hanging network call leaves the caller's promise pending forever. -/
theorem claim_C3_amended :
    (∀ events : List Azure.SynthEvent,
      Azure.azRun Azure.initState (Azure.SynthEvent.timeoutFires :: events) =
        Azure.azRun Azure.initState [Azure.SynthEvent.timeoutFires]) ∧
    (Azure.azRun Azure.initState [Azure.SynthEvent.timeoutFires]).outcome =
      some Azure.Outcome.rejectedTimeout ∧
    (Azure.azRun Azure.initState [Azure.SynthEvent.timeoutFires]).resets = 1 ∧
    (∀ network, settlesWithin (Azure.azCall network).1 Azure.synthesisTimeoutMs) ∧
    (ElevenLabs.singleChunkCall none).1 = none := by
  refine ⟨?_, rfl, rfl, ?_, rfl⟩
  · intro events
    have h1 : (Azure.azStep Azure.initState Azure.SynthEvent.timeoutFires).settled
        = true := rfl
    calc Azure.azRun Azure.initState (Azure.SynthEvent.timeoutFires :: events)
        = Azure.azRun (Azure.azStep Azure.initState Azure.SynthEvent.timeoutFires)
            events := rfl
      _ = Azure.azStep Azure.initState Azure.SynthEvent.timeoutFires :=
            Azure.azRun_settled _ h1 events
      _ = Azure.azRun Azure.initState [Azure.SynthEvent.timeoutFires] := rfl
  · intro network
    rcases network with _ | ⟨t, r⟩
    · exact ⟨Azure.synthesisTimeoutMs, rfl, Nat.le_refl _⟩
    · by_cases h : t < Azure.synthesisTimeoutMs
      · refine ⟨t, ?_, Nat.le_of_lt h⟩
        simp [Azure.azCall, h]
      · refine ⟨Azure.synthesisTimeoutMs, ?_, Nat.le_refl _⟩
        simp [Azure.azCall, h]

/-- C4: `stopSpeech()` called in any engine state leaves the playback engine
idle — audio paused at position 0, animation frame cancelled, pending
autoplay-resume listener removed, object URL revoked, mouth neutral — and
fires the completion signal (`onSpeechEnd`) exactly once per call. -/
theorem claim_C4 (s : AvatarEngine.EngineState) :
    ((AvatarEngine.stopSpeech s).1.animationFrame = none) ∧
    ((AvatarEngine.stopSpeech s).1.pendingResume = false) ∧
    ((AvatarEngine.stopSpeech s).1.objectUrl = none) ∧
    ((AvatarEngine.stopSpeech s).1.mouth = AvatarEngine.MouthShape.neutral) ∧
    ((AvatarEngine.stopSpeech s).1.audioElem.all
      (fun a => a.paused && a.currentTime == 0) = true) ∧
    ((AvatarEngine.stopSpeech s).2.count AvatarEngine.Signal.speechEnd = 1) := by
  refine ⟨rfl, rfl, rfl, rfl, ?_, rfl⟩
  cases h : s.audioElem <;> simp [AvatarEngine.stopSpeech, h]

/-- C5: when the first `element.play()` is rejected by the autoplay policy
and the retry succeeds, the engine immediately signals ended (one
`onSpeechEnd`, no `onSpeechStart`, not playing) and arms the one-shot resume
listener; a single subsequent user interaction retries playback exactly once
(two `play()` attempts in total), yielding exactly one successful playback
start with `onSpeechStart` firing once and the listener disarmed. -/
theorem claim_C5 (env : Nat → AvatarEngine.PlayOutcome)
    (h0 : env 0 = AvatarEngine.PlayOutcome.notAllowed)
    (h1 : env 1 = AvatarEngine.PlayOutcome.ok) :
    (AvatarEngine.attemptPlay env AvatarEngine.apInit).playing = false ∧
    (AvatarEngine.attemptPlay env AvatarEngine.apInit).startCount = 0 ∧
    (AvatarEngine.attemptPlay env AvatarEngine.apInit).endCount = 1 ∧
    (AvatarEngine.attemptPlay env AvatarEngine.apInit).pendingResume = true ∧
    (AvatarEngine.userInteraction env
      (AvatarEngine.attemptPlay env AvatarEngine.apInit)).playing = true ∧
    (AvatarEngine.userInteraction env
      (AvatarEngine.attemptPlay env AvatarEngine.apInit)).startCount = 1 ∧
    (AvatarEngine.userInteraction env
      (AvatarEngine.attemptPlay env AvatarEngine.apInit)).attempts = 2 ∧
    (AvatarEngine.userInteraction env
      (AvatarEngine.attemptPlay env AvatarEngine.apInit)).pendingResume = false := by
  have ha : AvatarEngine.attemptPlay env AvatarEngine.apInit =
      AvatarEngine.APState.mk 1 false true 0 1 := by
    simp [AvatarEngine.attemptPlay, AvatarEngine.apInit, h0]
  have hb : AvatarEngine.userInteraction env (AvatarEngine.APState.mk 1 false true 0 1) =
      AvatarEngine.APState.mk 2 true false 1 1 := by
    simp [AvatarEngine.userInteraction, AvatarEngine.attemptPlay, h1]
  rw [ha, hb]
  exact ⟨rfl, rfl, rfl, rfl, rfl, rfl, rfl, rfl⟩

/-- C5 witness: the theorem applied to the concrete environment in which the
first play attempt is blocked and the second succeeds. -/
theorem claim_C5_witness :
    AvatarEngine.envBlockedThenOk 0 = AvatarEngine.PlayOutcome.notAllowed ∧
    AvatarEngine.envBlockedThenOk 1 = AvatarEngine.PlayOutcome.ok ∧
    (AvatarEngine.userInteraction AvatarEngine.envBlockedThenOk
      (AvatarEngine.attemptPlay AvatarEngine.envBlockedThenOk
        AvatarEngine.apInit)).startCount = 1 ∧
    (AvatarEngine.userInteraction AvatarEngine.envBlockedThenOk
      (AvatarEngine.attemptPlay AvatarEngine.envBlockedThenOk
        AvatarEngine.apInit)).attempts = 2 := by
  have h := claim_C5 AvatarEngine.envBlockedThenOk rfl rfl
  exact ⟨rfl, rfl, h.2.2.2.2.2.1, h.2.2.2.2.2.2.1⟩

/-- C6: every VisemeData sequence returned by either adapter is
non-decreasing in `audioOffset`: the Azure adapter's sort of the collected
callback events is sorted by offset; the approximated generator's output is
non-decreasing for every duration and every outcome of the random draws; and
the multi-chunk concatenation of generated chunk results with cumulative
re-offsetting is non-decreasing. -/
theorem claim_C6 :
    (∀ vs : List VisemeData, List.Pairwise visLE (Azure.sortVisemes vs)) ∧
    (∀ (choice : Nat → Nat) (d : Nat),
      List.Pairwise visLE (ElevenLabs.generateApproximateVisemes choice d)) ∧
    (∀ chunkSpecs : List ((Nat → Nat) × Nat),
      List.Pairwise visLE
        (ElevenLabs.concatenateResults (chunkSpecs.map fun p =>
          TTSResult.mk [] (ElevenLabs.generateApproximateVisemes p.1 p.2)
            p.2)).visemeData) := by
  refine ⟨?_, ?_, ?_⟩
  · intro vs
    exact List.sorted_insertionSort visLE vs
  · intro choice d
    exact ElevenLabs.generate_pairwise choice d
  · intro specs
    match specs with
    | [] =>
      simp [ElevenLabs.concatenateResults]
    | [p] =>
      simp only [List.map_cons, List.map_nil, ElevenLabs.concatenateResults]
      exact ElevenLabs.generate_pairwise p.1 p.2
    | p :: q :: rest =>
      simp only [List.map_cons, ElevenLabs.concatenateResults]
      apply ElevenLabs.concatVisemes_pairwise
      intro r hr
      rcases List.mem_cons.mp hr with rfl | hr1
      · exact ⟨ElevenLabs.generate_pairwise p.1 p.2,
          ElevenLabs.generate_offset_le p.1 p.2⟩
      rcases List.mem_cons.mp hr1 with rfl | hr2
      · exact ⟨ElevenLabs.generate_pairwise q.1 q.2,
          ElevenLabs.generate_offset_le q.1 q.2⟩
      rcases List.mem_map.mp hr2 with ⟨x, -, rfl⟩
      exact ⟨ElevenLabs.generate_pairwise x.1 x.2,
        ElevenLabs.generate_offset_le x.1 x.2⟩

/-- C7: for every positive duration `d` and every outcome of the random
draws, the approximated-viseme generator emits one event per 50 ms starting
at offset 0 — the `k`-th event at offset `50 * k`, for exactly those `k` with
`50 * k < d` — and appends a final closed-mouth event with `visemeId 0` at
offset exactly `d`. -/
theorem claim_C7 (choice : Nat → Nat) (d : Nat) (_hd : 0 < d) :
    ElevenLabs.generateApproximateVisemes choice d =
      ((List.range ((d + 49) / 50)).map
        (fun k => VisemeData.mk (50 * k) (choice k))) ++ [VisemeData.mk d 0] ∧
    (∀ k : Nat, 50 * k < d ↔ k < (d + 49) / 50) := by
  refine ⟨ElevenLabs.generateApproximateVisemes_eq choice d, ?_⟩
  intro k
  omega

/-- C7 witness: with `durationMillis = 1000` the generator yields 20 events
at offsets 0, 50, …, 950 plus the final closed-mouth event at offset 1000
(21 events in total, hence at least 20). -/
theorem claim_C7_witness :
    (0 : Nat) < 1000 ∧
    (ElevenLabs.generateApproximateVisemes (fun _ => 1) 1000).length = 21 ∧
    (ElevenLabs.generateApproximateVisemes (fun _ => 1) 1000).getLast? =
      some (VisemeData.mk 1000 0) := by
  have h := claim_C7 (fun _ => 1) 1000 (by decide)
  refine ⟨by decide, ?_, ?_⟩
  · rw [h.1]
    decide
  · rw [h.1]
    decide

/-- C10: for every input string whose whitespace-trimmed form is empty, in
any initialized hook state, `speakWithLipSync` resolves immediately with
duration 0 and `speakWithoutLipSync` resolves immediately without error; in
both cases the hook state (speaking/loading flags included) is left entirely
unchanged and the provider-invoking `launched` path is never reached. -/
theorem claim_C10 (s : Hook.HookState) (text : List Char)
    (hinit : s.isInitialized = true)
    (hempty : TextPrep.trim text = []) :
    Hook.speakWithLipSyncStart s text = (s, Hook.SpeakOutcome.returnedEarly) ∧
    Hook.speakWithoutLipSyncStart s text = (s, Hook.SpeakOutcome.returnedEarly) := by
  constructor <;>
    simp [Hook.speakWithLipSyncStart, Hook.speakWithoutLipSyncStart, hinit, hempty]

/-- C10 witness: the blank text `"  "` in the initial (initialized) hook
state. -/
theorem claim_C10_witness :
    Hook.initState.isInitialized = true ∧
    TextPrep.trim (("  ").toList) = [] ∧
    Hook.speakWithLipSyncStart Hook.initState (("  ").toList) =
      (Hook.initState, Hook.SpeakOutcome.returnedEarly) ∧
    Hook.speakWithoutLipSyncStart Hook.initState (("  ").toList) =
      (Hook.initState, Hook.SpeakOutcome.returnedEarly) := by
  have h := claim_C10 Hook.initState (("  ").toList) (by decide) (by decide)
  exact ⟨by decide, by decide, h.1, h.2⟩
